import Mathlib

/-!
Shallow embedding of the connection-health subsystem of the go-eth2-client
HTTP service (`http/service.go`): the ping state machine, the probe gate,
the static-value cache eviction, the DVT-middleware detection, the guard
functions `assertIsActive` / `assertIsSynced`, and the relevant part of
construction (`New`).

Network calls and the semaphore are modelled as an explicit `World` oracle;
each operation returns the updated `Service` value together with a `Trace`
recording which external calls were made and whether the static values were
cleared, so that frame conditions ("no network call is made") are statable.
-/

namespace GoEth2Http

/-- Response data of the node-syncing call (`response.Data` of `NodeSyncing`):
`{IsSyncing, HeadSlot, SyncDistance}`. -/
structure NodeSyncingData where
  isSyncing : Bool
  headSlot : Nat
  syncDistance : Nat
deriving DecidableEq, Repr

/-- Opaque stand-in for `apiv1.Genesis` (defined outside the embedded file). -/
structure Genesis where
  data : Nat
deriving DecidableEq, Repr

/-- Opaque stand-in for the chain-spec map `map[string]interface\x7b\x7d`. -/
structure SpecMap where
  data : Nat
deriving DecidableEq, Repr

/-- Opaque stand-in for `apiv1.DepositContract`. -/
structure DepositContract where
  data : Nat
deriving DecidableEq, Repr

/-- Opaque stand-in for the fork schedule slice `[]*phase0.Fork`. -/
structure ForkSchedule where
  data : Nat
deriving DecidableEq, Repr

/-- Model of a Go `context.Context`: all the embedding needs is whether the
context has been cancelled. -/
structure Ctx where
  cancelled : Bool
deriving DecidableEq, Repr

/-- Model of `context.Background()`: a fresh, never-cancelled context. -/
def Ctx.background : Ctx := ⟨false⟩

/-- The mutable fields of `http.Service` that the embedded code touches.
Pointer-valued static facts are `Option` (nil = `none`); `nodeVersion` is a
Go string whose empty value is `""`. -/
structure Service where
  address : String
  base : String
  genesis : Option Genesis
  spec : Option SpecMap
  depositContract : Option DepositContract
  forkSchedule : Option ForkSchedule
  nodeVersion : String
  connectionActive : Bool
  connectionSynced : Bool
  enforceJSON : Bool
  connectedToDVTMiddleware : Bool
deriving DecidableEq, Repr

/-- The external environment of one operation: whether `pingSem.TryAcquire(1)`
succeeds, and the outcomes of the two network calls the embedded code makes,
each a function of the context it is invoked with (`none` = transport error). -/
structure World where
  pingSemAcquired : Bool
  nodeSyncing : Ctx → Option NodeSyncingData
  nodeVersionResp : Ctx → Option String

/-- Record of the externally visible effects of one operation: how many times
`ping` ran, how many node-syncing and node-version network calls were made,
and whether `clearStaticValues` ran. -/
structure Trace where
  pingCalls : Nat
  nodeSyncingCalls : Nat
  nodeVersionCalls : Nat
  clearedStaticValues : Bool
deriving DecidableEq, Repr

/-- Trace of an operation that performed no external effect at all. -/
def Trace.none : Trace := ⟨0, 0, 0, false⟩

/-- Embedding of `clearStaticValues`: sets the five static facts back to
empty (`nil` pointers and slice, empty version string). -/
def clearStaticValues (s : Service) : Service :=
  { s with
    genesis := none
    spec := none
    depositContract := none
    forkSchedule := none
    nodeVersion := "" }

/-- Embedding of `checkDVT`: fetches the node version; on error returns the
error; otherwise lower-cases the version and sets the sticky
`connectedToDVTMiddleware` flag when it contains "charon". -/
def checkDVT (s : Service) (w : World) (ctx : Ctx) : Except String Service :=
  match w.nodeVersionResp ctx with
  | none => Except.error "failed to obtain node version for DVT check"
  | some respData =>
      let version := respData.toLower
      if version.containsSubstr "charon" then
        Except.ok { s with connectedToDVTMiddleware := true }
      else
        Except.ok s

/-- The probe part of `ping` (lines computing `active` / `synced` from the
node-syncing response): on error `(false, false)`; on success active, and
synced iff not syncing or head slot 0 with sync distance at most 1. -/
def probeOutcome (resp : Option NodeSyncingData) : Bool × Bool :=
  match resp with
  | none => (false, false)
  | some d => (true, !d.isSyncing || (d.headSlot == 0 && d.syncDistance ≤ 1))

/-- Embedding of `ping`: ignores the caller's context (the Go code shadows it
with `context.Background()`), reads the previous `(active, synced)` pair,
attempts the probe-gate permit, probes when the permit is held, runs the
transition side effects (DVT check on activation, which on failure forces
`active` back to false; static-value eviction on deactivation), and commits
the new pair. Returns the new service state and the effect trace. -/
def ping (_x : Ctx) (s : Service) (w : World) : Service × Trace :=
  let ctx := Ctx.background
  let wasActive := s.connectionActive
  let wasSynced := s.connectionSynced
  let acquired := w.pingSemAcquired
  let probe :=
    if acquired then probeOutcome (w.nodeSyncing ctx)
    else (wasActive, wasSynced)
  let active0 := probe.1
  let synced := probe.2
  let afterSwitch : Service × Bool :=
    if !wasActive && active0 then
      match checkDVT s w ctx with
      | Except.error _ => (s, false)
      | Except.ok s2 => (s2, active0)
    else if wasActive && !active0 then
      (clearStaticValues s, active0)
    else
      (s, active0)
  ({ afterSwitch.1 with
      connectionActive := afterSwitch.2
      connectionSynced := synced },
   { pingCalls := 1
     nodeSyncingCalls := if acquired then 1 else 0
     nodeVersionCalls := if !wasActive && active0 then 1 else 0
     clearedStaticValues := wasActive && !active0 })

/-- Embedding of `IsActive`: lock-protected snapshot read of the active flag. -/
def IsActive (_x : Ctx) (s : Service) : Bool :=
  s.connectionActive

/-- Embedding of `IsSynced`: lock-protected snapshot read of the synced flag. -/
def IsSynced (_x : Ctx) (s : Service) : Bool :=
  s.connectionSynced

/-- Typed errors `client.ErrNotActive` and `client.ErrNotSynced`. -/
inductive ClientErr where
  | notActive
  | notSynced
deriving DecidableEq, Repr

/-- Embedding of `assertIsActive`: succeed at once when active; otherwise
ping once and fail with `ErrNotActive` when still inactive. -/
def assertIsActive (x : Ctx) (s : Service) (w : World) :
    Except ClientErr Unit × Service × Trace :=
  if IsActive x s then
    (Except.ok (), s, Trace.none)
  else
    let r := ping x s w
    if !(IsActive x r.1) then
      (Except.error ClientErr.notActive, r.1, r.2)
    else
      (Except.ok (), r.1, r.2)

/-- Embedding of `assertIsSynced`: succeed at once when synced; otherwise
ping once; fail with `ErrNotActive` when inactive, `ErrNotSynced` when
active but still unsynced. -/
def assertIsSynced (x : Ctx) (s : Service) (w : World) :
    Except ClientErr Unit × Service × Trace :=
  if IsSynced x s then
    (Except.ok (), s, Trace.none)
  else
    let r := ping x s w
    if !(IsActive x r.1) then
      (Except.error ClientErr.notActive, r.1, r.2)
    else if !(IsSynced x r.1) then
      (Except.error ClientErr.notSynced, r.1, r.2)
    else
      (Except.ok (), r.1, r.2)

/-- The construction parameters `New` consumes (after parsing). -/
structure Parameters where
  address : String
  allowDelayedStart : Bool
  enforceJSON : Bool
deriving DecidableEq, Repr

/-- The URL normalization in `New`: prepend "http://" when the address does
not start with "http", then append "/" when it does not end with "/". -/
def normalizedAddress (address : String) : String :=
  let a1 := if address.startsWith "http" then address else "http://" ++ address
  if a1.endsWith "/" then a1 else a1 ++ "/"

/-- The service value `New` builds before the initial ping: empty facts,
inactive, unsynced, no DVT flag; `address` keeps the raw parameter while
`base` holds the normalized URL. -/
def initialService (p : Parameters) : Service :=
  { address := p.address
    base := normalizedAddress p.address
    genesis := none
    spec := none
    depositContract := none
    forkSchedule := none
    nodeVersion := ""
    connectionActive := false
    connectionSynced := false
    enforceJSON := p.enforceJSON
    connectedToDVTMiddleware := false }

/-- Embedding of the decision logic of `New`: build the initial service, run
one synchronous ping, and fail with `ErrNotActive` when the service is still
inactive and delayed start is not allowed. -/
def New (x : Ctx) (p : Parameters) (w : World) : Except ClientErr Service :=
  let s0 := initialService p
  let s1 := (ping x s0 w).1
  let active := IsActive x s1
  if !active && !p.allowDelayedStart then
    Except.error ClientErr.notActive
  else
    Except.ok s1

/-- Embedding of `Address`: returns the stored raw address. -/
def Address (s : Service) : String :=
  s.address

/-! Helper lemmas shared by the claim theorems. -/

lemma checkDVT_of_none {s : Service} {w : World} {ctx : Ctx}
    (h : w.nodeVersionResp ctx = none) :
    checkDVT s w ctx = Except.error "failed to obtain node version for DVT check" := by
  simp [checkDVT, h]

lemma checkDVT_of_some {s : Service} {w : World} {ctx : Ctx} {v : String}
    (h : w.nodeVersionResp ctx = some v) :
    checkDVT s w ctx = Except.ok s ∨
      checkDVT s w ctx = Except.ok { s with connectedToDVTMiddleware := true } := by
  simp only [checkDVT, h]
  by_cases hc : (v.toLower.containsSubstr "charon" : Bool) <;> simp [hc]

lemma ping_pingCalls (x : Ctx) (s : Service) (w : World) :
    (ping x s w).2.pingCalls = 1 := rfl

/-- C1: for every call to ping holding the probe permit: if the sync-status
call fails, the committed state is `(active = false, synced = false)`; the
committed `synced` always equals the probe outcome; on success the probe
outcome is active, and synced iff the node is not syncing or reports head
slot 0 with sync distance at most 1; in particular
`{isSyncing: true, headSlot: 0, syncDistance: 1}` gives synced = true and
`{isSyncing: true, headSlot: 100, syncDistance: 1}` gives synced = false. -/
theorem ping_sync_determination (x : Ctx) (s : Service) (w : World)
    (hacq : w.pingSemAcquired = true) :
    (w.nodeSyncing Ctx.background = none →
      (ping x s w).1.connectionActive = false ∧
      (ping x s w).1.connectionSynced = false) ∧
    (ping x s w).1.connectionSynced = (probeOutcome (w.nodeSyncing Ctx.background)).2 ∧
    (∀ d, w.nodeSyncing Ctx.background = some d →
      (probeOutcome (some d)).1 = true ∧
      ((probeOutcome (some d)).2 = true ↔
        (d.isSyncing = false ∨ (d.headSlot = 0 ∧ d.syncDistance ≤ 1)))) ∧
    probeOutcome (some ⟨true, 0, 1⟩) = (true, true) ∧
    probeOutcome (some ⟨true, 100, 1⟩) = (true, false) := by
  refine ⟨?_, ?_, ?_, by decide, by decide⟩
  · intro hn
    cases hA : s.connectionActive <;>
      simp [ping, hacq, hn, probeOutcome, hA, clearStaticValues]
  · cases hn : w.nodeSyncing Ctx.background with
    | none =>
        cases hA : s.connectionActive <;>
          simp [ping, hacq, hn, probeOutcome, hA, clearStaticValues]
    | some d =>
        cases hA : s.connectionActive
        · rcases hv : w.nodeVersionResp Ctx.background with _ | v
          · simp [ping, hacq, hn, probeOutcome, hA, checkDVT_of_none hv]
          · rcases checkDVT_of_some (s := s) (w := w) hv with hc | hc <;>
              simp [ping, hacq, hn, probeOutcome, hA, hc]
        · simp [ping, hacq, hn, probeOutcome, hA]
  · intro d hd
    refine ⟨rfl, ?_⟩
    simp [probeOutcome]


/-- Closed witness for `ping_sync_determination` at a concrete state and a
failing sync-status call. -/
theorem ping_sync_determination_witness :
    ((⟨"a", "http://a/", none, none, none, none, "", false, false, false,
        false⟩ : Service).connectionActive = false ∧ True) ∧
    (ping ⟨false⟩
        ⟨"a", "http://a/", none, none, none, none, "", false, false, false, false⟩
        ⟨true, fun _ => none, fun _ => none⟩).1.connectionActive = false := by
  refine ⟨⟨rfl, trivial⟩, ?_⟩
  exact ((ping_sync_determination ⟨false⟩
    ⟨"a", "http://a/", none, none, none, none, "", false, false, false, false⟩
    ⟨true, fun _ => none, fun _ => none⟩ rfl).1 rfl).1

/-- C2: a ping that does not acquire the probe-gate permit makes no network
call, runs no transition side effect, and leaves the whole service state
(including the stored `(connectionActive, connectionSynced)` pair)
unchanged. -/
theorem ping_no_permit (x : Ctx) (s : Service) (w : World)
    (h : w.pingSemAcquired = false) :
    ping x s w = (s, ⟨1, 0, 0, false⟩) := by
  cases s
  simp [ping, h]

/-- Closed witness for `ping_no_permit` at a concrete state. -/
theorem ping_no_permit_witness :
    ping ⟨false⟩
        ⟨"a", "http://a/", some ⟨1⟩, none, none, none, "v", true, true, false, true⟩
        ⟨false, fun _ => some ⟨false, 5, 0⟩, fun _ => some "teku"⟩ =
      (⟨"a", "http://a/", some ⟨1⟩, none, none, none, "v", true, true, false, true⟩,
        ⟨1, 0, 0, false⟩) :=
  ping_no_permit ⟨false⟩ _ _ rfl

/-- C9: ping ignores the caller's context and issues its calls under a fresh
background context: for any two caller contexts (one may be cancelled) and
any two worlds whose oracles agree on the background context, the results
coincide. -/
theorem ping_ctx_independent (x y : Ctx) (s : Service) (w1 w2 : World)
    (hsem : w1.pingSemAcquired = w2.pingSemAcquired)
    (hsync : w1.nodeSyncing Ctx.background = w2.nodeSyncing Ctx.background)
    (hver : w1.nodeVersionResp Ctx.background = w2.nodeVersionResp Ctx.background) :
    ping x s w1 = ping y s w2 := by
  simp [ping, checkDVT, hsem, hsync, hver]

/-- Closed witness for `ping_ctx_independent`: a cancelled caller context and
a world whose oracles misbehave on cancelled contexts give the same result
as an untouched context with background-only oracles. -/
theorem ping_ctx_independent_witness :
    ping ⟨true⟩
        ⟨"a", "http://a/", none, none, none, none, "", true, true, false, false⟩
        ⟨true, fun c => if c.cancelled then none else some ⟨false, 5, 0⟩,
          fun c => if c.cancelled then none else some "teku"⟩ =
      ping ⟨false⟩
        ⟨"a", "http://a/", none, none, none, none, "", true, true, false, false⟩
        ⟨true, fun _ => some ⟨false, 5, 0⟩, fun _ => some "teku"⟩ :=
  ping_ctx_independent ⟨true⟩ ⟨false⟩ _ _ _ rfl rfl rfl

/-- C3: when ping observes an inactive-to-active transition (prior state
inactive, permit held, sync-status call succeeded) and the middleware
detection version fetch fails, the detection call is made exactly once and
the committed state is forced back to inactive; ping itself returns no
error to the caller (its type carries none). -/
theorem ping_activation_detection_failure (x : Ctx) (s : Service) (w : World)
    (hA : s.connectionActive = false) (hacq : w.pingSemAcquired = true)
    (hd : (w.nodeSyncing Ctx.background).isSome = true)
    (hv : w.nodeVersionResp Ctx.background = none) :
    (ping x s w).2.nodeVersionCalls = 1 ∧
    (ping x s w).1.connectionActive = false := by
  rcases Option.isSome_iff_exists.mp hd with ⟨d, hd2⟩
  simp [ping, hacq, hA, hd2, probeOutcome, checkDVT_of_none hv]

/-- Closed witness for `ping_activation_detection_failure`. -/
theorem ping_activation_detection_failure_witness :
    (ping ⟨false⟩
        ⟨"a", "http://a/", none, none, none, none, "", false, false, false, false⟩
        ⟨true, fun _ => some ⟨false, 5, 0⟩, fun _ => none⟩).2.nodeVersionCalls = 1 ∧
    (ping ⟨false⟩
        ⟨"a", "http://a/", none, none, none, none, "", false, false, false, false⟩
        ⟨true, fun _ => some ⟨false, 5, 0⟩, fun _ => none⟩).1.connectionActive = false :=
  ping_activation_detection_failure ⟨false⟩ _ _ rfl rfl rfl rfl

/-- Concrete prior state for the C4 counterexample: inactive, unsynced. -/
def dvtFailState : Service :=
  ⟨"a", "http://a/", none, none, none, none, "", false, false, false, false⟩

/-- Concrete world for the C4 counterexample: permit available, the node
reports fully synced, but the version fetch of the DVT check fails. -/
def dvtFailWorld : World :=
  ⟨true, fun _ => some ⟨false, 5, 0⟩, fun _ => none⟩

/-- C4 counterexample: from the inactive state, a successful probe reporting
synced followed by a failing middleware-detection call commits the pair
`(active = false, synced = true)`, so the claimed invariant fails. -/
theorem ping_commits_inactive_synced :
    (ping ⟨false⟩ dvtFailState dvtFailWorld).1.connectionActive = false ∧
    (ping ⟨false⟩ dvtFailState dvtFailWorld).1.connectionSynced = true := by
  decide

/-- C4 amended: the pair `(active = false, synced = true)` is committed only
when either the probe permit was not acquired and the stored pair was
already `(false, true)`, or the prior state was inactive, the sync-status
call succeeded, and the middleware-detection version fetch failed; on every
other path `active = false` implies `synced = false`. -/
theorem ping_inactive_synced_characterization (x : Ctx) (s : Service) (w : World)
    (h1 : (ping x s w).1.connectionActive = false)
    (h2 : (ping x s w).1.connectionSynced = true) :
    (w.pingSemAcquired = false ∧ s.connectionActive = false ∧
      s.connectionSynced = true) ∨
    (w.pingSemAcquired = true ∧ s.connectionActive = false ∧
      (w.nodeSyncing Ctx.background).isSome = true ∧
      w.nodeVersionResp Ctx.background = none) := by
  cases hacq : w.pingSemAcquired
  · cases hA : s.connectionActive
    · cases hS : s.connectionSynced
      · simp [ping, hacq, hA, hS] at h2
      · exact Or.inl ⟨rfl, rfl, rfl⟩
    · simp [ping, hacq, hA] at h1
  · cases hA : s.connectionActive
    · cases hn : w.nodeSyncing Ctx.background with
      | none => simp [ping, hacq, hA, hn, probeOutcome] at h2
      | some d =>
          rcases hv : w.nodeVersionResp Ctx.background with _ | v
          · exact Or.inr ⟨rfl, rfl, by simp [hn], rfl⟩
          · rcases checkDVT_of_some (s := s) (w := w) hv with hc | hc <;>
              simp [ping, hacq, hA, hn, probeOutcome, hc] at h1
    · cases hn : w.nodeSyncing Ctx.background with
      | none => simp [ping, hacq, hA, hn, probeOutcome, clearStaticValues] at h2
      | some d => simp [ping, hacq, hA, hn, probeOutcome] at h1

/-- Closed witness for `ping_inactive_synced_characterization` at the
concrete counterexample input. -/
theorem ping_inactive_synced_characterization_witness :
    (dvtFailWorld.pingSemAcquired = false ∧ dvtFailState.connectionActive = false ∧
      dvtFailState.connectionSynced = true) ∨
    (dvtFailWorld.pingSemAcquired = true ∧ dvtFailState.connectionActive = false ∧
      (dvtFailWorld.nodeSyncing Ctx.background).isSome = true ∧
      dvtFailWorld.nodeVersionResp Ctx.background = none) :=
  ping_inactive_synced_characterization ⟨false⟩ dvtFailState dvtFailWorld
    (by decide) (by decide)

/-- C5: when ping observes an active-to-inactive transition (prior state
active, committed state inactive), all five static facts are cleared and
the eviction ran. -/
theorem ping_deactivation_clears_facts (x : Ctx) (s : Service) (w : World)
    (h1 : s.connectionActive = true)
    (h2 : (ping x s w).1.connectionActive = false) :
    (ping x s w).1.genesis = none ∧ (ping x s w).1.spec = none ∧
    (ping x s w).1.depositContract = none ∧ (ping x s w).1.forkSchedule = none ∧
    (ping x s w).1.nodeVersion = "" ∧ (ping x s w).2.clearedStaticValues = true := by
  cases hacq : w.pingSemAcquired
  · simp [ping, hacq, h1] at h2
  · cases hn : w.nodeSyncing Ctx.background with
    | none => simp [ping, hacq, h1, hn, probeOutcome, clearStaticValues]
    | some d => simp [ping, hacq, h1, hn, probeOutcome] at h2

/-- Closed witness for `ping_deactivation_clears_facts`: an active service
with populated facts loses them all when the probe fails. -/
theorem ping_deactivation_clears_facts_witness :
    (ping ⟨false⟩
        ⟨"a", "http://a/", some ⟨1⟩, some ⟨2⟩, some ⟨3⟩, some ⟨4⟩, "teku", true,
          true, false, false⟩
        ⟨true, fun _ => none, fun _ => none⟩).1.genesis = none ∧
    (ping ⟨false⟩
        ⟨"a", "http://a/", some ⟨1⟩, some ⟨2⟩, some ⟨3⟩, some ⟨4⟩, "teku", true,
          true, false, false⟩
        ⟨true, fun _ => none, fun _ => none⟩).1.spec = none ∧
    (ping ⟨false⟩
        ⟨"a", "http://a/", some ⟨1⟩, some ⟨2⟩, some ⟨3⟩, some ⟨4⟩, "teku", true,
          true, false, false⟩
        ⟨true, fun _ => none, fun _ => none⟩).1.depositContract = none ∧
    (ping ⟨false⟩
        ⟨"a", "http://a/", some ⟨1⟩, some ⟨2⟩, some ⟨3⟩, some ⟨4⟩, "teku", true,
          true, false, false⟩
        ⟨true, fun _ => none, fun _ => none⟩).1.forkSchedule = none ∧
    (ping ⟨false⟩
        ⟨"a", "http://a/", some ⟨1⟩, some ⟨2⟩, some ⟨3⟩, some ⟨4⟩, "teku", true,
          true, false, false⟩
        ⟨true, fun _ => none, fun _ => none⟩).1.nodeVersion = "" ∧
    (ping ⟨false⟩
        ⟨"a", "http://a/", some ⟨1⟩, some ⟨2⟩, some ⟨3⟩, some ⟨4⟩, "teku", true,
          true, false, false⟩
        ⟨true, fun _ => none, fun _ => none⟩).2.clearedStaticValues = true :=
  ping_deactivation_clears_facts ⟨false⟩ _ _ rfl rfl

lemma ping_frame (x : Ctx) (s : Service) (w : World) :
    (ping x s w).1.address = s.address ∧ (ping x s w).1.base = s.base ∧
    (s.connectedToDVTMiddleware = true →
      (ping x s w).1.connectedToDVTMiddleware = true) ∧
    (s.connectionActive = true →
      (ping x s w).1.connectedToDVTMiddleware = s.connectedToDVTMiddleware) := by
  cases hacq : w.pingSemAcquired
  · cases hA : s.connectionActive <;> simp [ping, hacq, hA]
  · cases hA : s.connectionActive
    · cases hn : w.nodeSyncing Ctx.background with
      | none => simp [ping, hacq, hA, hn, probeOutcome]
      | some d =>
          rcases hv : w.nodeVersionResp Ctx.background with _ | v
          · simp [ping, hacq, hA, hn, probeOutcome, checkDVT_of_none hv]
          · rcases checkDVT_of_some (s := s) (w := w) hv with hc | hc <;>
              simp [ping, hacq, hA, hn, probeOutcome, hc]
    · cases hn : w.nodeSyncing Ctx.background with
      | none => simp [ping, hacq, hA, hn, probeOutcome, clearStaticValues]
      | some d => simp [ping, hacq, hA, hn, probeOutcome]

/-- C6: if the cached state is already synced, `assertIsSynced` succeeds with
no probe and no network call; otherwise it runs exactly one ping and returns
`ErrNotActive` when the resulting state is inactive, `ErrNotSynced` when
active but still unsynced, and success when now synced. -/
theorem assertIsSynced_guard (x : Ctx) (s : Service) (w : World) :
    (s.connectionSynced = true →
      assertIsSynced x s w = (Except.ok (), s, Trace.none)) ∧
    (s.connectionSynced = false →
      assertIsSynced x s w =
        (if (ping x s w).1.connectionActive = false then
           Except.error ClientErr.notActive
         else if (ping x s w).1.connectionSynced = false then
           Except.error ClientErr.notSynced
         else Except.ok (),
         (ping x s w).1, (ping x s w).2) ∧
      (assertIsSynced x s w).2.2.pingCalls = 1) := by
  constructor
  · intro h
    simp [assertIsSynced, IsSynced, h]
  · intro h
    constructor
    · cases ha : (ping x s w).1.connectionActive <;>
        cases hs2 : (ping x s w).1.connectionSynced <;>
          simp [assertIsSynced, IsSynced, IsActive, h, ha, hs2]
    · cases ha : (ping x s w).1.connectionActive <;>
        cases hs2 : (ping x s w).1.connectionSynced <;>
          simp [assertIsSynced, IsSynced, IsActive, h, ha, hs2, ping_pingCalls]

/-- Closed witness for `assertIsSynced_guard`: the fast path at a synced
state, and the single-probe path at an unsynced state. -/
theorem assertIsSynced_guard_witness :
    assertIsSynced ⟨false⟩
        ⟨"a", "http://a/", none, none, none, none, "", true, true, false, false⟩
        ⟨true, fun _ => some ⟨false, 5, 0⟩, fun _ => none⟩ =
      (Except.ok (),
        ⟨"a", "http://a/", none, none, none, none, "", true, true, false, false⟩,
        Trace.none) ∧
    (assertIsSynced ⟨false⟩
        ⟨"a", "http://a/", none, none, none, none, "", false, false, false, false⟩
        ⟨false, fun _ => none, fun _ => none⟩).2.2.pingCalls = 1 :=
  ⟨(assertIsSynced_guard ⟨false⟩
      ⟨"a", "http://a/", none, none, none, none, "", true, true, false, false⟩
      ⟨true, fun _ => some ⟨false, 5, 0⟩, fun _ => none⟩).1 rfl,
   ((assertIsSynced_guard ⟨false⟩
      ⟨"a", "http://a/", none, none, none, none, "", false, false, false, false⟩
      ⟨false, fun _ => none, fun _ => none⟩).2 rfl).2⟩

/-- C7: when the initial synchronous probe leaves the service inactive,
construction fails with `ErrNotActive` if delayed start is not allowed, and
otherwise succeeds with a service whose `IsActive` is false. -/
theorem New_construction_gating (x : Ctx) (p : Parameters) (w : World)
    (h : (ping x (initialService p) w).1.connectionActive = false) :
    (p.allowDelayedStart = false → New x p w = Except.error ClientErr.notActive) ∧
    (p.allowDelayedStart = true →
      ∃ s, New x p w = Except.ok s ∧ IsActive x s = false) := by
  constructor
  · intro hd
    simp [New, IsActive, h, hd]
  · intro hd
    refine ⟨(ping x (initialService p) w).1, ?_, h⟩
    simp [New, IsActive, h, hd]

/-- Closed witness for `New_construction_gating` against an unreachable node:
delayed start allowed gives an inactive service, disallowed gives the error. -/
theorem New_construction_gating_witness :
    (∃ s, New ⟨false⟩ ⟨"localhost:5052", true, false⟩
        ⟨true, fun _ => none, fun _ => none⟩ = Except.ok s ∧
      IsActive ⟨false⟩ s = false) ∧
    New ⟨false⟩ ⟨"localhost:5052", false, false⟩
        ⟨true, fun _ => none, fun _ => none⟩ =
      Except.error ClientErr.notActive :=
  ⟨(New_construction_gating ⟨false⟩ ⟨"localhost:5052", true, false⟩
      ⟨true, fun _ => none, fun _ => none⟩ rfl).2 rfl,
   (New_construction_gating ⟨false⟩ ⟨"localhost:5052", false, false⟩
      ⟨true, fun _ => none, fun _ => none⟩ rfl).1 rfl⟩

/-- C8: the DVT-middleware flag is sticky: `clearStaticValues` never changes
it, a ping from an active prior state (in particular one that deactivates
and evicts the facts) never changes it, and once it is true any ping keeps
it true. -/
theorem dvt_flag_sticky (x : Ctx) (s : Service) (w : World) :
    (clearStaticValues s).connectedToDVTMiddleware = s.connectedToDVTMiddleware ∧
    (s.connectionActive = true →
      (ping x s w).1.connectedToDVTMiddleware = s.connectedToDVTMiddleware) ∧
    (s.connectedToDVTMiddleware = true →
      (ping x s w).1.connectedToDVTMiddleware = true) :=
  ⟨rfl, (ping_frame x s w).2.2.2, (ping_frame x s w).2.2.1⟩

/-- Closed witness for `dvt_flag_sticky`: an active service with the flag set
keeps it across a deactivating ping (which clears the static facts). -/
theorem dvt_flag_sticky_witness :
    (clearStaticValues
        ⟨"a", "http://a/", some ⟨1⟩, none, none, none, "charon/v1", true, true,
          false, true⟩).connectedToDVTMiddleware =
      (⟨"a", "http://a/", some ⟨1⟩, none, none, none, "charon/v1", true, true,
          false, true⟩ : Service).connectedToDVTMiddleware ∧
    (ping ⟨false⟩
        ⟨"a", "http://a/", some ⟨1⟩, none, none, none, "charon/v1", true, true,
          false, true⟩
        ⟨true, fun _ => none, fun _ => none⟩).1.connectedToDVTMiddleware = true :=
  ⟨(dvt_flag_sticky ⟨false⟩
      ⟨"a", "http://a/", some ⟨1⟩, none, none, none, "charon/v1", true, true,
        false, true⟩
      ⟨true, fun _ => none, fun _ => none⟩).1,
   (dvt_flag_sticky ⟨false⟩
      ⟨"a", "http://a/", some ⟨1⟩, none, none, none, "charon/v1", true, true,
        false, true⟩
      ⟨true, fun _ => none, fun _ => none⟩).2.2 rfl⟩

/-- C10: any service produced by `New` reports through `Address` exactly the
raw address parameter, while the stored base URL is the normalized form
(scheme prepended, trailing slash appended). -/
theorem Address_returns_raw_parameter (x : Ctx) (p : Parameters) (w : World)
    (s : Service) (h : New x p w = Except.ok s) :
    Address s = p.address ∧ s.base = normalizedAddress p.address := by
  rw [New] at h
  split at h
  · exact absurd h (by simp)
  · replace h : (ping x (initialService p) w).1 = s := by
      simpa using h
    subst h
    constructor
    · rw [Address, (ping_frame x (initialService p) w).1]
      simp [initialService]
    · rw [(ping_frame x (initialService p) w).2.1]
      simp [initialService]

/-- Closed witness for `Address_returns_raw_parameter` at an address that the
normalization rewrites. -/
theorem Address_returns_raw_parameter_witness :
    Address (ping ⟨false⟩ (initialService ⟨"localhost:5052", true, false⟩)
        ⟨true, fun _ => none, fun _ => none⟩).1 = "localhost:5052" ∧
    (ping ⟨false⟩ (initialService ⟨"localhost:5052", true, false⟩)
        ⟨true, fun _ => none, fun _ => none⟩).1.base =
      normalizedAddress "localhost:5052" :=
  Address_returns_raw_parameter ⟨false⟩ ⟨"localhost:5052", true, false⟩
    ⟨true, fun _ => none, fun _ => none⟩ _ rfl

end GoEth2Http
